import Mathlib

/-!
Verification development for the GCP BoQ pricing calculator.

Shallow embedding of the repository's cost-calculation engine
(`calculateBoQ` cloud function), the pricing-catalog normalizer
(`pricing-updater/index.js` and `pricing-fetcher/index.js`), and the
catalog lifecycle orchestration.

Modelling conventions:
* JavaScript numbers are modelled as exact rationals (`ℚ`).
* The three BigQuery catalog look-ups inside `fetchPricingForResource`
  are modelled by their result lists (`List ℚ` of `price_per_unit`
  values, the head being the `LIMIT 1` row); an empty list means the
  query matched no row.
* A resource whose `machine_type` is absent (`undefined` in JS) makes
  `resource.machine_type.split("-")` throw inside the `try` block of
  `fetchPricingForResource`; that exception is caught by the function's
  own `catch`, which switches to the fallback prices.  This is modelled
  by the `none` branch of `fetchPricingForResource`.
* Fields of records that no claim touches (timestamps, echoes of the
  input specification, `additional_disks` breakdown, tags, regex-derived
  machine family / vCPU / memory attributes of the description parser)
  are omitted from the embedded records; no embedded control flow
  depends on them.
-/

namespace BoQ

/-- A resource specification row (`gcp_resource_specifications`), with the
fields the calculator reads.  `machine_type` is `Option` because the
end-to-end scenario of the spec submits a resource without one. -/
structure Resource where
  resource_id : String
  project_id : String
  machine_type : Option String
  vcpu_count : ℚ
  memory_gb : ℚ
  disk_type : String
  disk_size_gb : ℚ
  region : String
  pricing_model : String
  usage_duration_hours : ℚ
  usage_pattern : String
  gpu_count : ℚ
  external_ip : Bool
deriving Repr, DecidableEq

/-- The pricing-components record initialised at the top of
`fetchPricingForResource`. -/
structure Pricing where
  compute_price_per_hour : ℚ
  memory_price_per_gb_hour : ℚ
  storage_price_per_gb_month : ℚ
  network_price_per_gb : ℚ
  gpu_price_per_hour : ℚ
deriving Repr, DecidableEq

/-- Per-component base costs (`calculateBaseCosts` result). -/
structure Costs where
  compute : ℚ
  memory : ℚ
  storage : ℚ
  network : ℚ
  gpu : ℚ
deriving Repr, DecidableEq

/-- Discount record (`calculateDiscounts` result). -/
structure Discounts where
  sud_percent : ℚ
  cud_percent : ℚ
  spot_percent : ℚ
  sud_amount : ℚ
  cud_amount : ℚ
  spot_amount : ℚ
deriving Repr, DecidableEq

/-- Totals record (`calculateTotals` result). -/
structure Totals where
  subtotal : ℚ
  total_discount : ℚ
  total_cost : ℚ
deriving Repr, DecidableEq

/-- `getUsageType` helper of the calculator. -/
def getUsageType (pricingModel : String) : String :=
  if pricingModel = "spot" ∨ pricingModel = "preemptible" then "Preemptible"
  else if pricingModel = "cud-1-year" ∨ pricingModel = "cud-3-year" then "Committed"
  else "OnDemand"

/-- `estimateComputePricing`: fallback estimate
`vcpu_count * 0.0475 + memory_gb * 0.0063`. -/
def estimateComputePricing (resource : Resource) : ℚ :=
  resource.vcpu_count * 0.0475 + resource.memory_gb * 0.0063

/-- `getDefaultStoragePricing`: fallback storage price per GB-month by
disk type. -/
def getDefaultStoragePricing (diskType : String) : ℚ :=
  if diskType = "pd-ssd" then 0.17
  else if diskType = "pd-balanced" then 0.1
  else 0.04

/-- `fetchPricingForResource`.  The three catalog queries are modelled by
their result lists (`computeRows`, `storageRows`, `gpuRows`).  When
`machine_type` is absent, deriving `machineFamily` throws inside the
`try`; the `catch` fills in `estimateComputePricing` and
`getDefaultStoragePricing` and leaves the GPU price at its initial `0`. -/
def fetchPricingForResource (resource : Resource)
    (computeRows storageRows gpuRows : List ℚ) : Pricing :=
  match resource.machine_type with
  | none =>
      { compute_price_per_hour := estimateComputePricing resource
        memory_price_per_gb_hour := 0
        storage_price_per_gb_month := getDefaultStoragePricing resource.disk_type
        network_price_per_gb := 0
        gpu_price_per_hour := 0 }
  | some _ =>
      { compute_price_per_hour :=
          match computeRows with
          | p :: _ => p
          | [] => estimateComputePricing resource
        memory_price_per_gb_hour := 0
        storage_price_per_gb_month :=
          match storageRows with
          | p :: _ => p
          | [] => getDefaultStoragePricing resource.disk_type
        network_price_per_gb := 0
        gpu_price_per_hour :=
          if 0 < resource.gpu_count then
            match gpuRows with
            | p :: _ => p
            | [] => 0
          else 0 }

/-- `calculateBaseCosts`: compute = price × hours; storage = price × size ×
(hours / 730); GPU = price × count × hours when `gpu_count > 0`; network =
0.004 × hours when an external IP is requested.  The `memory` component is
initialised to `0` and never assigned. -/
def calculateBaseCosts (resource : Resource) (pricing : Pricing) : Costs :=
  { compute := pricing.compute_price_per_hour * resource.usage_duration_hours
    memory := 0
    storage := pricing.storage_price_per_gb_month * resource.disk_size_gb *
      (resource.usage_duration_hours / 730)
    network := if resource.external_ip then 0.004 * resource.usage_duration_hours else 0
    gpu :=
      if 0 < resource.gpu_count then
        pricing.gpu_price_per_hour * resource.gpu_count * resource.usage_duration_hours
      else 0 }

/-- `calculateDiscounts`: switch on `pricing_model`; sustained-use applies
on the `on-demand`/default branch when hours exceed 183 and the usage
pattern is continuous, with percent `min(30, floor((hours - 183)/73) * 5)`. -/
def calculateDiscounts (resource : Resource) (costs : Costs) : Discounts :=
  let totalComputeCost := costs.compute + costs.gpu
  if resource.pricing_model = "spot" ∨ resource.pricing_model = "preemptible" then
    { sud_percent := 0, cud_percent := 0, spot_percent := 60
      sud_amount := 0, cud_amount := 0
      spot_amount := totalComputeCost * (60 / 100) }
  else if resource.pricing_model = "cud-1-year" then
    { sud_percent := 0, cud_percent := 25, spot_percent := 0
      sud_amount := 0, cud_amount := totalComputeCost * (25 / 100)
      spot_amount := 0 }
  else if resource.pricing_model = "cud-3-year" then
    { sud_percent := 0, cud_percent := 37, spot_percent := 0
      sud_amount := 0, cud_amount := totalComputeCost * (37 / 100)
      spot_amount := 0 }
  else
    if 183 < resource.usage_duration_hours ∧ resource.usage_pattern = "continuous" then
      let p : ℚ := min 30 ((⌊(resource.usage_duration_hours - 183) / 73⌋ : ℤ) * 5 : ℤ)
      { sud_percent := p, cud_percent := 0, spot_percent := 0
        sud_amount := totalComputeCost * (p / 100), cud_amount := 0, spot_amount := 0 }
    else
      { sud_percent := 0, cud_percent := 0, spot_percent := 0
        sud_amount := 0, cud_amount := 0, spot_amount := 0 }

/-- `calculateTotals`: subtotal of the five components, total discount of
the three amounts, and `total_cost = max(0, subtotal - totalDiscount)`. -/
def calculateTotals (costs : Costs) (discounts : Discounts) : Totals :=
  let subtotal := costs.compute + costs.memory + costs.storage + costs.network + costs.gpu
  let totalDiscount := discounts.sud_amount + discounts.cud_amount + discounts.spot_amount
  { subtotal := subtotal
    total_discount := totalDiscount
    total_cost := max 0 (subtotal - totalDiscount) }

/-- One BoQ line item (`calculateResourceBoQ` result), restricted to the
fields the claims read. -/
structure LineItem where
  boq_id : String
  resource_id : String
  project_id : String
  region : String
  compute_cost_usd : ℚ
  memory_cost_usd : ℚ
  storage_cost_usd : ℚ
  network_cost_usd : ℚ
  gpu_cost_usd : ℚ
  compute_price_per_hour : ℚ
  memory_price_per_gb_hour : ℚ
  storage_price_per_gb_month : ℚ
  sustained_use_discount_percent : ℚ
  committed_use_discount_percent : ℚ
  spot_discount_percent : ℚ
  subtotal_usd : ℚ
  total_discount_usd : ℚ
  total_cost_usd : ℚ
deriving Repr, DecidableEq

/-- The result lists of the three catalog queries issued for one
resource, abstracting the BigQuery pricing-catalog store. -/
structure QueryRows where
  compute : List ℚ
  storage : List ℚ
  gpu : List ℚ
deriving Repr, DecidableEq

/-- `calculateResourceBoQ` for a single resource: resolve pricing,
compute base costs, apply discounts, total, and assemble the line item. -/
def calculateResourceBoQ (resource : Resource) (boqId : String)
    (rows : QueryRows) : LineItem :=
  let pricing := fetchPricingForResource resource rows.compute rows.storage rows.gpu
  let costs := calculateBaseCosts resource pricing
  let discounts := calculateDiscounts resource costs
  let totals := calculateTotals costs discounts
  { boq_id := boqId
    resource_id := resource.resource_id
    project_id := resource.project_id
    region := resource.region
    compute_cost_usd := costs.compute
    memory_cost_usd := costs.memory
    storage_cost_usd := costs.storage
    network_cost_usd := costs.network
    gpu_cost_usd := costs.gpu
    compute_price_per_hour := pricing.compute_price_per_hour
    memory_price_per_gb_hour := pricing.memory_price_per_gb_hour
    storage_price_per_gb_month := pricing.storage_price_per_gb_month
    sustained_use_discount_percent := discounts.sud_percent
    committed_use_discount_percent := discounts.cud_percent
    spot_discount_percent := discounts.spot_percent
    subtotal_usd := totals.subtotal
    total_discount_usd := totals.total_discount
    total_cost_usd := totals.total_cost }

/-- Run summary (`calculateSummary` result).  The JS accumulator objects
`costByProject` / `costByRegion` are modelled as total maps defaulting to
`0` (matching `(obj[k] || 0)`). -/
structure Summary where
  total_resources : ℕ
  total_cost_usd : ℚ
  total_discount_usd : ℚ
  average_cost_per_resource : ℚ
  cost_by_project : String → ℚ
  cost_by_region : String → ℚ

/-- `calculateSummary`: returns `none` for an empty result list (the JS
function returns `{}`), otherwise totals, average and the two grouping
maps over the given line items. -/
def calculateSummary (results : List LineItem) : Option Summary :=
  if results = [] then none
  else
    let totalCost := (results.map (·.total_cost_usd)).sum
    let totalDiscount := (results.map (·.total_discount_usd)).sum
    some
      { total_resources := results.length
        total_cost_usd := totalCost
        total_discount_usd := totalDiscount
        average_cost_per_resource := totalCost / results.length
        cost_by_project := fun p =>
          ((results.filter (·.project_id = p)).map (·.total_cost_usd)).sum
        cost_by_region := fun reg =>
          ((results.filter (·.region = reg)).map (·.total_cost_usd)).sum }

/-- The per-resource loop of the `calculateBoQ` HTTP handler: each
resource is processed by a step that may throw; a thrown error is caught
and that resource skipped, the loop continuing with the rest. -/
def calcLoop (step : Resource → Except String LineItem) :
    List Resource → List LineItem
  | [] => []
  | r :: rs =>
      match step r with
      | .ok item => item :: calcLoop step rs
      | .error _ => calcLoop step rs

/-- The JSON response of the `calculateBoQ` handler, restricted to the
fields the claims read. -/
structure RunResponse where
  success : Bool
  resources_processed : ℕ
  summary : Option Summary
  results : List LineItem

/-- The `calculateBoQ` handler over an already-fetched list of resource
specifications: empty list gives the 404 "no matching resources"
response; otherwise each resource goes through the guarded loop, and the
200 response carries `success: true`, the count of successfully processed
resources and the summary over exactly those. -/
def calculateBoQRun (step : Resource → Except String LineItem)
    (resourceSpecs : List Resource) : RunResponse :=
  if resourceSpecs = [] then
    { success := false, resources_processed := 0, summary := none, results := [] }
  else
    let boqResults := calcLoop step resourceSpecs
    { success := true
      resources_processed := boqResults.length
      summary := calculateSummary boqResults
      results := boqResults }

/-- The step actually run per resource in the source: `calculateResourceBoQ`,
which (under this model's fields) always returns a line item — in
particular an absent `machine_type` is degraded to fallback pricing
inside `fetchPricingForResource` rather than thrown out of the step. -/
def defaultStep (boqId : String) (db : Resource → QueryRows)
    (r : Resource) : Except String LineItem :=
  .ok (calculateResourceBoQ r boqId (db r))

end BoQ

/-- Does the character list start with the pattern list? (helper for the
JS `String.prototype.includes` substring test). -/
def headMatches : List Char → List Char → Bool
  | [], _ => true
  | _ :: _, [] => false
  | p :: ps, c :: cs => p = c && headMatches ps cs

/-- Substring occurrence test over character lists (JS `includes`). -/
def subOccurs (pat : List Char) : List Char → Bool
  | [] => pat.isEmpty
  | c :: cs => headMatches pat (c :: cs) || subOccurs pat cs

/-- `desc.includes(pat)` for an already-lower-cased description. -/
def strContains (desc : List Char) (pat : String) : Bool :=
  subOccurs pat.toList desc

/-- `description.toLowerCase()` as a character list. -/
def lowerChars (s : String) : List Char :=
  s.toList.map Char.toLower

namespace PricingUpdater

/-- Attribute set produced by the pricing-updater's `extractMachineInfo`
(`cloud-functions/pricing-updater/index.js`), restricted to the fields
the claims read; the regex-derived machine family / type / vCPU / memory
fields and the `tags` list are omitted (nothing embedded reads them). -/
structure MachineInfo where
  usageType : String
  diskType : Option String
  commitmentTerm : Option String
  commitmentType : Option String
  discountPercent : ℚ
  networkTier : Option String
  category : String
deriving Repr, DecidableEq

/-- Initial attribute set of `extractMachineInfo`. -/
def initInfo : MachineInfo :=
  { usageType := "OnDemand", diskType := none, commitmentTerm := none
    commitmentType := none, discountPercent := 0, networkTier := none
    category := "compute" }

/-- Disk-type classification block: `ssd` → `pd-ssd`; else `balanced` →
`pd-balanced`; else `standard` with a `disk`/`storage` co-occurrence →
`pd-standard`; each match also sets category `storage`. -/
def diskStage (desc : List Char) (info : MachineInfo) : MachineInfo :=
  if strContains desc "ssd" then
    { info with diskType := some "pd-ssd", category := "storage" }
  else if strContains desc "balanced" then
    { info with diskType := some "pd-balanced", category := "storage" }
  else if strContains desc "standard" then
    if strContains desc "disk" || strContains desc "storage" then
      { info with diskType := some "pd-standard", category := "storage" }
    else info
  else info

/-- GPU detection block: `gpu`/`nvidia`/`tesla` set category `gpu` (the
`<vendor>-<model>` capture is omitted; nothing embedded reads it). -/
def gpuStage (desc : List Char) (info : MachineInfo) : MachineInfo :=
  if strContains desc "gpu" || strContains desc "nvidia" || strContains desc "tesla" then
    { info with category := "gpu" }
  else info

/-- Usage-type detection block: `preemptible`/`spot` → `Preemptible`. -/
def usageStage (desc : List Char) (info : MachineInfo) : MachineInfo :=
  if strContains desc "preemptible" || strContains desc "spot" then
    { info with usageType := "Preemptible" }
  else info

/-- Commitment-term detection block: 1-year → 25%, 3-year → 37%, both
setting usage type `Committed` and commitment type `resource`. -/
def commitmentStage (desc : List Char) (info : MachineInfo) : MachineInfo :=
  if strContains desc "1 year" || strContains desc "1-year" then
    { info with commitmentTerm := some "1-year", usageType := "Committed"
                commitmentType := some "resource", discountPercent := 25 }
  else if strContains desc "3 year" || strContains desc "3-year" then
    { info with commitmentTerm := some "3-year", usageType := "Committed"
                commitmentType := some "resource", discountPercent := 37 }
  else info

/-- Network-tier detection block: `premium` → premium/network; else
`standard` with `network`/`egress`/`ip` co-occurrence → standard/network. -/
def networkStage (desc : List Char) (info : MachineInfo) : MachineInfo :=
  if strContains desc "premium" then
    { info with networkTier := some "premium", category := "network" }
  else if strContains desc "standard" then
    if strContains desc "network" || strContains desc "egress" || strContains desc "ip" then
      { info with networkTier := some "standard", category := "network" }
    else info
  else info

/-- The pricing-updater's `extractMachineInfo`: lower-case the
description, then run the detection blocks in source order (disk, GPU,
usage type, commitment, network). -/
def extractMachineInfo (description : String) : MachineInfo :=
  let desc := lowerChars description
  networkStage desc
    (commitmentStage desc (usageStage desc (gpuStage desc (diskStage desc initInfo))))

end PricingUpdater

namespace PricingFetcher

/-- Attribute set of the pricing-fetcher's `extractMachineInfo`
(`cloud-functions/pricing-fetcher/index.js`), restricted to the fields
the claims read. -/
structure MachineInfo where
  usageType : String
  diskType : Option String
  commitmentTerm : Option String
  category : String
deriving Repr, DecidableEq

/-- Initial attribute set of the fetcher's `extractMachineInfo`. -/
def initInfo : MachineInfo :=
  { usageType := "OnDemand", diskType := none, commitmentTerm := none
    category := "compute" }

/-- The fetcher's disk-type block: `ssd` → `pd-ssd`; else `standard` →
`pd-standard` (no co-occurrence requirement); else `balanced` →
`pd-balanced`; each match sets category `storage`. -/
def diskStage (desc : List Char) (info : MachineInfo) : MachineInfo :=
  if strContains desc "ssd" then
    { info with diskType := some "pd-ssd", category := "storage" }
  else if strContains desc "standard" then
    { info with diskType := some "pd-standard", category := "storage" }
  else if strContains desc "balanced" then
    { info with diskType := some "pd-balanced", category := "storage" }
  else info

/-- The fetcher's GPU detection block. -/
def gpuStage (desc : List Char) (info : MachineInfo) : MachineInfo :=
  if strContains desc "gpu" || strContains desc "nvidia" || strContains desc "tesla" then
    { info with category := "gpu" }
  else info

/-- The fetcher's usage-type detection block. -/
def usageStage (desc : List Char) (info : MachineInfo) : MachineInfo :=
  if strContains desc "preemptible" || strContains desc "spot" then
    { info with usageType := "Preemptible" }
  else info

/-- The fetcher's commitment-term detection block. -/
def commitmentStage (desc : List Char) (info : MachineInfo) : MachineInfo :=
  if strContains desc "1 year" || strContains desc "1-year" then
    { info with commitmentTerm := some "1-year", usageType := "Committed" }
  else if strContains desc "3 year" || strContains desc "3-year" then
    { info with commitmentTerm := some "3-year", usageType := "Committed" }
  else info

/-- The pricing-fetcher's `extractMachineInfo`: lower-case, then disk,
GPU, usage-type and commitment blocks in source order (it has no
network-tier block). -/
def extractMachineInfo (description : String) : MachineInfo :=
  let desc := lowerChars description
  commitmentStage desc (usageStage desc (gpuStage desc (diskStage desc initInfo)))

end PricingFetcher

namespace PricingUpdater

/-- A fixed-point unit price from the billing feed: integer whole-unit
part and fractional nanos, either possibly absent (JS `undefined`,
defaulted to `0` by `parseInt(x || 0)`). -/
structure UnitPrice where
  units : Option ℤ
  nanos : Option ℤ
deriving Repr, DecidableEq

/-- One tiered rate of a pricing expression (only its unit price is read
for the headline price). -/
structure TieredRate where
  unitPrice : UnitPrice
deriving Repr, DecidableEq

/-- A raw price-list SKU record as consumed by `extractPricingInfo`:
`pricingInfo` is a list whose first element's pricing expression holds
the tiered rates. -/
structure RawSku where
  skuId : String
  description : String
  tieredRatesOfFirstPricingInfo : Option (List TieredRate)
deriving Repr, DecidableEq

/-- A normalized catalog entry, restricted to the fields the claims
read (the full source record also carries region, currency, dates,
machine attributes and tags). -/
structure NormalizedEntry where
  sku_id : String
  price_per_unit : ℚ
  category : String
  is_active : Bool
deriving Repr, DecidableEq

/-- The `units + nanos / 1e9` fixed-point conversion of
`extractPricingInfo` (both operands defaulted to `0` when absent). -/
def priceOfUnitPrice (price : UnitPrice) : ℚ :=
  (price.nanos.getD 0 : ℚ) / 1000000000 + (price.units.getD 0 : ℚ)

/-- The pricing-updater's `extractPricingInfo` (the catalog normalizer):
drop the SKU when it has no pricing info, no tiered rates, or a headline
price of zero (free-tier noise); otherwise build the catalog entry with
the first tier's converted price and the parsed description attributes. -/
def extractPricingInfo (sku : RawSku) : Option NormalizedEntry :=
  match sku.tieredRatesOfFirstPricingInfo with
  | none => none
  | some tieredRates =>
      match tieredRates with
      | [] => none
      | baseRate :: _ =>
          let pricePerUnit := priceOfUnitPrice baseRate.unitPrice
          if pricePerUnit = 0 then none
          else
            some { sku_id := sku.skuId
                   price_per_unit := pricePerUnit
                   category := (extractMachineInfo sku.description).category
                   is_active := true }

/-- The headline price a raw entry should get according to the spec:
`units + nanos / 1e9` of the first tier. -/
def specHeadlinePrice (rate : TieredRate) : ℚ :=
  (rate.unitPrice.units.getD 0 : ℚ) + (rate.unitPrice.nanos.getD 0 : ℚ) / 1000000000

/-- A BigQuery job of the catalog-refresh saga, modelled by whether the
underlying store operation succeeds. -/
def runStoreJob (ok : Bool) : Except String Unit :=
  if ok then .ok () else .error "store operation failed"

/-- Step 1, `markExistingPricingInactive`: its own `try`/`catch` logs a
failure and returns normally (does not abort the refresh). -/
def markExistingPricingInactive (ok : Bool) : Unit :=
  match runStoreJob ok with
  | .ok _ => ()
  | .error _ => ()

/-- Step 2, `insertPricingData`: its `catch` rethrows, so a failure
propagates to the refresh orchestrator. -/
def insertPricingData (ok : Bool) : Except String Unit :=
  match runStoreJob ok with
  | .ok _ => .ok ()
  | .error e => .error e

/-- Step 3, `cleanupOldPricingData`: its own `try`/`catch` logs a
failure and returns normally. -/
def cleanupOldPricingData (ok : Bool) : Unit :=
  match runStoreJob ok with
  | .ok _ => ()
  | .error _ => ()

/-- The `updatePricingCatalog` refresh orchestrator over the three store
operations' outcomes: mark-inactive, then (when there are records to
insert) insert, then cleanup; only an insert failure escapes, and the
handler's outer `catch` rethrows it, so it is fatal to the run.  Returns
the `records_updated` count on success. -/
def updatePricingCatalog (step1ok step2ok step3ok : Bool)
    (recordCount : ℕ) : Except String ℕ :=
  let _ := markExistingPricingInactive step1ok
  match (if 0 < recordCount then insertPricingData step2ok else .ok ()) with
  | .error e => .error e
  | .ok _ =>
      let _ := cleanupOldPricingData step3ok
      .ok recordCount

end PricingUpdater

namespace BoQ

/-- Number of discount families (sustained-use, committed-use, spot) that
are non-zero (in percent or amount) in a discount record. -/
def discountFamilyCount (d : Discounts) : ℕ :=
  (if d.sud_percent ≠ 0 ∨ d.sud_amount ≠ 0 then 1 else 0) +
  (if d.cud_percent ≠ 0 ∨ d.cud_amount ≠ 0 then 1 else 0) +
  (if d.spot_percent ≠ 0 ∨ d.spot_amount ≠ 0 then 1 else 0)

/-- The spec's closed-form sustained-use percent as a function of the
usage duration (for an on-demand, continuous-usage resource):
`min(30, floor((hours - 183) / 73) * 5)` above 183 hours, else `0`. -/
def sudPercentSpec (hours : ℚ) : ℚ :=
  if 183 < hours then min 30 ((⌊(hours - 183) / 73⌋ * 5 : ℤ) : ℚ) else 0

end BoQ

/-- C3: for every costs record and every discounts record,
`calculateTotals` returns `total_cost = max(0, subtotal − total_discount)`
(with `subtotal` the sum of the five cost components and `total_discount`
the sum of the three discount amounts), so the total cost of a line item
is never negative. -/
theorem calculateTotals_floor_at_zero (c : BoQ.Costs) (d : BoQ.Discounts) :
    (BoQ.calculateTotals c d).subtotal
        = c.compute + c.memory + c.storage + c.network + c.gpu ∧
    (BoQ.calculateTotals c d).total_discount
        = d.sud_amount + d.cud_amount + d.spot_amount ∧
    (BoQ.calculateTotals c d).total_cost
        = max 0 ((BoQ.calculateTotals c d).subtotal
            - (BoQ.calculateTotals c d).total_discount) ∧
    0 ≤ (BoQ.calculateTotals c d).total_cost :=
  ⟨rfl, rfl, rfl, le_max_left 0 _⟩

/-- C10: `calculateBaseCosts` always returns a memory cost of exactly `0`
(the `memory` component is initialised to zero and never assigned), so
every produced BoQ line item has `memory_cost_usd = 0`. -/
theorem calculateBaseCosts_memory_zero (r : BoQ.Resource) (p : BoQ.Pricing)
    (boqId : String) (rows : BoQ.QueryRows) :
    (BoQ.calculateBaseCosts r p).memory = 0 ∧
    (BoQ.calculateResourceBoQ r boqId rows).memory_cost_usd = 0 :=
  ⟨rfl, rfl⟩

/-- C9: in a catalog refresh run, failures of step 1 (mark prior-generation
entries inactive) and step 3 (purge old inactive entries) are caught and do
not abort the refresh, while a failure of step 2 (insert the new
generation) propagates and is fatal to the run. -/
theorem updatePricingCatalog_failure_policy (step1ok step3ok : Bool) (n : ℕ) :
    PricingUpdater.updatePricingCatalog step1ok true step3ok n = .ok n ∧
    (0 < n →
      PricingUpdater.updatePricingCatalog step1ok false step3ok n
        = .error "store operation failed") := by
  constructor
  · by_cases h : 0 < n <;>
      simp [PricingUpdater.updatePricingCatalog, PricingUpdater.insertPricingData,
        PricingUpdater.runStoreJob, h]
  · intro hn
    simp [PricingUpdater.updatePricingCatalog, PricingUpdater.insertPricingData,
      PricingUpdater.runStoreJob, hn]

/-- C9 witness: a refresh whose step-1 and step-3 store operations both
fail still fails only through step 2. -/
theorem updatePricingCatalog_failure_policy_witness :
    PricingUpdater.updatePricingCatalog false false false 5
      = .error "store operation failed" :=
  (updatePricingCatalog_failure_policy false false 5).2 (by norm_num)

namespace BoQ

/-- Arithmetic helper: a usage duration of at least 256 hours puts at
least one full 73-hour step above the 183-hour threshold. -/
theorem floor73_ge_one {h : ℚ} (hh : 256 ≤ h) : (1:ℤ) ≤ ⌊(h - 183) / 73⌋ := by
  apply Int.le_floor.mpr
  push_cast
  rw [le_div_iff₀ (by norm_num : (0:ℚ) < 73)]
  linarith

/-- Arithmetic helper: between 183 and 256 hours no full 73-hour step has
accumulated, so the floor is zero. -/
theorem floor73_eq_zero {h : ℚ} (h1 : 183 < h) (h2 : h < 256) :
    ⌊(h - 183) / 73⌋ = (0:ℤ) := by
  rw [Int.floor_eq_zero_iff]
  constructor
  · exact div_nonneg (by linarith) (by norm_num)
  · rw [div_lt_one (by norm_num : (0:ℚ) < 73)]
    linarith

/-- Arithmetic helper: at `183 + 73×6` hours or more, at least six full
73-hour steps have accumulated. -/
theorem floor73_ge_six {h : ℚ} (hh : 183 + 73 * 6 ≤ h) :
    (6:ℤ) ≤ ⌊(h - 183) / 73⌋ := by
  apply Int.le_floor.mpr
  push_cast
  rw [le_div_iff₀ (by norm_num : (0:ℚ) < 73)]
  linarith

end BoQ

/-- Counterexample fixture for C1: a supported (`on-demand`) continuous
resource at 200 usage hours — above the 183-hour threshold but below the
first 73-hour discount step. -/
def rC1ce : BoQ.Resource :=
  { resource_id := "ce-1", project_id := "proj-a", machine_type := some "n1-standard-1"
    vcpu_count := 1, memory_gb := 3.75, disk_type := "pd-standard", disk_size_gb := 10
    region := "us-central1", pricing_model := "on-demand", usage_duration_hours := 200
    usage_pattern := "continuous", gpu_count := 0, external_ip := false }

/-- Counterexample fixture for C1: a costs record with positive compute
cost. -/
def cC1ce : BoQ.Costs :=
  { compute := 100, memory := 0, storage := 4, network := 0, gpu := 0 }

/-- C1 counterexample: for the supported pricing model `on-demand` with a
continuous 200-hour usage, `calculateDiscounts` returns NO non-zero
discount family (the sustained-use percent floors to zero below 256
hours), refuting "exactly one non-zero discount family for every
supported pricing model". -/
theorem calculateDiscounts_zero_families_on_demand_200h :
    BoQ.discountFamilyCount (BoQ.calculateDiscounts rC1ce cC1ce) = 0 ∧
    rC1ce.pricing_model = "on-demand" ∧
    183 < rC1ce.usage_duration_hours ∧
    rC1ce.usage_pattern = "continuous" := by
  refine ⟨?_, rfl, by norm_num [rC1ce], rfl⟩
  norm_num [BoQ.calculateDiscounts, BoQ.discountFamilyCount, rC1ce, cC1ce]
  decide

/-- C1 (amended): at most one discount family is ever non-zero, and it
is the family named by the pricing model: spot/preemptible give only the
spot family (60%), cud-1-year/cud-3-year give only the committed family
(25%/37%), and on-demand gives only the sustained-use family, which is
non-zero exactly when the usage pattern is continuous and the duration
is at least 256 hours; for a duration of at most 183 hours every
discount field is zero. -/
theorem calculateDiscounts_family_selection (r : BoQ.Resource) (c : BoQ.Costs) :
    ((r.pricing_model = "spot" ∨ r.pricing_model = "preemptible") →
      BoQ.calculateDiscounts r c =
        { sud_percent := 0, cud_percent := 0, spot_percent := 60
          sud_amount := 0, cud_amount := 0
          spot_amount := (c.compute + c.gpu) * (60 / 100) } ∧
      BoQ.discountFamilyCount (BoQ.calculateDiscounts r c) = 1) ∧
    (r.pricing_model = "cud-1-year" →
      BoQ.calculateDiscounts r c =
        { sud_percent := 0, cud_percent := 25, spot_percent := 0
          sud_amount := 0, cud_amount := (c.compute + c.gpu) * (25 / 100)
          spot_amount := 0 } ∧
      BoQ.discountFamilyCount (BoQ.calculateDiscounts r c) = 1) ∧
    (r.pricing_model = "cud-3-year" →
      BoQ.calculateDiscounts r c =
        { sud_percent := 0, cud_percent := 37, spot_percent := 0
          sud_amount := 0, cud_amount := (c.compute + c.gpu) * (37 / 100)
          spot_amount := 0 } ∧
      BoQ.discountFamilyCount (BoQ.calculateDiscounts r c) = 1) ∧
    (r.pricing_model = "on-demand" →
      ((BoQ.calculateDiscounts r c).spot_percent = 0 ∧
        (BoQ.calculateDiscounts r c).spot_amount = 0 ∧
        (BoQ.calculateDiscounts r c).cud_percent = 0 ∧
        (BoQ.calculateDiscounts r c).cud_amount = 0) ∧
      (BoQ.discountFamilyCount (BoQ.calculateDiscounts r c) =
        if r.usage_pattern = "continuous" ∧ 256 ≤ r.usage_duration_hours then 1 else 0) ∧
      (r.usage_duration_hours ≤ 183 →
        BoQ.calculateDiscounts r c =
          { sud_percent := 0, cud_percent := 0, spot_percent := 0
            sud_amount := 0, cud_amount := 0, spot_amount := 0 })) := by
  refine ⟨?_, ?_, ?_, ?_⟩
  · intro hm
    have hd : BoQ.calculateDiscounts r c =
        { sud_percent := 0, cud_percent := 0, spot_percent := 60
          sud_amount := 0, cud_amount := 0
          spot_amount := (c.compute + c.gpu) * (60 / 100) } := by
      rcases hm with hm | hm <;> simp [BoQ.calculateDiscounts, hm]
    refine ⟨hd, ?_⟩
    rw [hd]
    norm_num [BoQ.discountFamilyCount]
  · intro hm
    have hne1 : ¬(r.pricing_model = "spot" ∨ r.pricing_model = "preemptible") := by
      rw [hm]; decide
    have hd : BoQ.calculateDiscounts r c =
        { sud_percent := 0, cud_percent := 25, spot_percent := 0
          sud_amount := 0, cud_amount := (c.compute + c.gpu) * (25 / 100)
          spot_amount := 0 } := by
      simp [BoQ.calculateDiscounts, hm, hne1]
    refine ⟨hd, ?_⟩
    rw [hd]
    norm_num [BoQ.discountFamilyCount]
  · intro hm
    have hne1 : ¬(r.pricing_model = "spot" ∨ r.pricing_model = "preemptible") := by
      rw [hm]; decide
    have hne2 : ¬(r.pricing_model = "cud-1-year") := by rw [hm]; decide
    have hd : BoQ.calculateDiscounts r c =
        { sud_percent := 0, cud_percent := 37, spot_percent := 0
          sud_amount := 0, cud_amount := (c.compute + c.gpu) * (37 / 100)
          spot_amount := 0 } := by
      simp [BoQ.calculateDiscounts, hm, hne1, hne2]
    refine ⟨hd, ?_⟩
    rw [hd]
    norm_num [BoQ.discountFamilyCount]
  · intro hm
    have hne1 : ¬(r.pricing_model = "spot" ∨ r.pricing_model = "preemptible") := by
      rw [hm]; decide
    have hne2 : ¬(r.pricing_model = "cud-1-year") := by rw [hm]; decide
    have hne3 : ¬(r.pricing_model = "cud-3-year") := by rw [hm]; decide
    by_cases hp : r.usage_pattern = "continuous"
    · by_cases h183 : 183 < r.usage_duration_hours
      · have hcond : 183 < r.usage_duration_hours ∧ r.usage_pattern = "continuous" :=
          ⟨h183, hp⟩
        have hd : BoQ.calculateDiscounts r c =
            { sud_percent :=
                min 30 ((⌊(r.usage_duration_hours - 183) / 73⌋ * 5 : ℤ) : ℚ)
              cud_percent := 0, spot_percent := 0
              sud_amount := (c.compute + c.gpu) *
                (min 30 ((⌊(r.usage_duration_hours - 183) / 73⌋ * 5 : ℤ) : ℚ) / 100)
              cud_amount := 0, spot_amount := 0 } := by
          simp [BoQ.calculateDiscounts, hne1, hne2, hne3, hcond]
        rw [hd]
        refine ⟨by norm_num, ?_, by intro hle; linarith⟩
        by_cases h256 : 256 ≤ r.usage_duration_hours
        · have h5 : (5:ℚ) ≤ min 30 ((⌊(r.usage_duration_hours - 183) / 73⌋ * 5 : ℤ) : ℚ) := by
            apply le_min (by norm_num)
            have hk := BoQ.floor73_ge_one h256
            have hq : (1:ℚ) ≤ (⌊(r.usage_duration_hours - 183) / 73⌋ : ℚ) := by
              exact_mod_cast hk
            push_cast
            linarith
          have hne : min 30 ((⌊(r.usage_duration_hours - 183) / 73⌋ * 5 : ℤ) : ℚ) ≠ 0 := by
            intro h0
            rw [h0] at h5
            norm_num at h5
          rw [if_pos ⟨hp, h256⟩]
          have h5p : (5:ℚ) ≤ 30 ⊓ ((⌊(r.usage_duration_hours - 183) / 73⌋ : ℚ) * 5) := by
            push_cast at h5
            exact h5
          simp [BoQ.discountFamilyCount, hne]
          intro h0
          rw [h0] at h5p
          norm_num at h5p
        · have hz := BoQ.floor73_eq_zero h183 (by linarith [not_le.mp h256])
          rw [if_neg (by tauto)]
          simp [BoQ.discountFamilyCount, hz]
      · have hcond : ¬(183 < r.usage_duration_hours ∧ r.usage_pattern = "continuous") := by
          tauto
        have h256n : ¬(r.usage_pattern = "continuous" ∧ 256 ≤ r.usage_duration_hours) := by
          intro hx
          exact h183 (by linarith [hx.2])
        simp [BoQ.calculateDiscounts, hne1, hne2, hne3, hcond, BoQ.discountFamilyCount, h256n]
    · have hcond : ¬(183 < r.usage_duration_hours ∧ r.usage_pattern = "continuous") := by
        tauto
      simp [BoQ.calculateDiscounts, hne1, hne2, hne3, hcond, BoQ.discountFamilyCount, hp]

/-- Witness fixture: a spot-priced resource. -/
def rC1w : BoQ.Resource :=
  { resource_id := "w-1", project_id := "proj-a", machine_type := some "n1-standard-1"
    vcpu_count := 1, memory_gb := 3.75, disk_type := "pd-standard", disk_size_gb := 10
    region := "us-central1", pricing_model := "spot", usage_duration_hours := 100
    usage_pattern := "intermittent", gpu_count := 0, external_ip := false }

/-- C1 witness: the family-selection theorem applied to a concrete spot
resource. -/
theorem calculateDiscounts_family_selection_witness :
    BoQ.calculateDiscounts rC1w cC1ce =
      { sud_percent := 0, cud_percent := 0, spot_percent := 60
        sud_amount := 0, cud_amount := 0
        spot_amount := (cC1ce.compute + cC1ce.gpu) * (60 / 100) } ∧
    BoQ.discountFamilyCount (BoQ.calculateDiscounts rC1w cC1ce) = 1 :=
  (calculateDiscounts_family_selection rC1w cC1ce).1 (Or.inl rfl)

/-- The sustained-use percent formula of the spec is monotone
non-decreasing in the usage duration. -/
theorem sudPercentSpec_monotone : Monotone BoQ.sudPercentSpec := by
  intro a b hab
  unfold BoQ.sudPercentSpec
  split_ifs with ha hb hb
  · apply min_le_min le_rfl
    have hfl : ⌊(a - 183) / 73⌋ ≤ ⌊(b - 183) / 73⌋ := by
      apply Int.floor_le_floor
      gcongr
    exact_mod_cast mul_le_mul_of_nonneg_right hfl (by norm_num : (0:ℤ) ≤ 5)
  · exact absurd (lt_of_lt_of_le ha hab) hb
  · have h0 : (0:ℤ) ≤ ⌊(b - 183) / 73⌋ :=
      Int.floor_nonneg.mpr (div_nonneg (by linarith) (by norm_num))
    have h0q : (0:ℚ) ≤ ((⌊(b - 183) / 73⌋ * 5 : ℤ) : ℚ) := by
      exact_mod_cast mul_nonneg h0 (by norm_num : (0:ℤ) ≤ 5)
    exact le_min (by norm_num) h0q
  · exact le_refl 0

/-- The sustained-use percent formula of the spec reaches its cap 30 for
any usage duration of at least `183 + 73×6` hours. -/
theorem sudPercentSpec_cap (h : ℚ) (hh : 183 + 73 * 6 ≤ h) :
    BoQ.sudPercentSpec h = 30 := by
  have h183 : (183:ℚ) < h := by linarith
  unfold BoQ.sudPercentSpec
  rw [if_pos h183]
  have h6 := BoQ.floor73_ge_six hh
  have h30 : (30:ℚ) ≤ ((⌊(h - 183) / 73⌋ * 5 : ℤ) : ℚ) := by
    have h6q : (6:ℚ) ≤ (⌊(h - 183) / 73⌋ : ℚ) := by exact_mod_cast h6
    push_cast
    linarith
  exact min_eq_left h30

/-- C2: for an on-demand resource with continuous usage pattern, the
sustained-use percent of `calculateDiscounts` equals
`min(30, floor((hours - 183)/73) * 5)` above 183 hours and `0` otherwise;
as a function of the usage duration it is monotone non-decreasing, and it
equals the cap 30 for every duration of at least `183 + 73×6` hours. -/
theorem calculateDiscounts_sud_monotone_capped (r : BoQ.Resource) (c : BoQ.Costs)
    (hm : r.pricing_model = "on-demand") (hp : r.usage_pattern = "continuous") :
    ((BoQ.calculateDiscounts r c).sud_percent =
      if 183 < r.usage_duration_hours then
        min 30 ((⌊(r.usage_duration_hours - 183) / 73⌋ * 5 : ℤ) : ℚ)
      else 0) ∧
    (∀ d1 d2 : ℚ, d1 ≤ d2 →
      (BoQ.calculateDiscounts { r with usage_duration_hours := d1 } c).sud_percent ≤
        (BoQ.calculateDiscounts { r with usage_duration_hours := d2 } c).sud_percent) ∧
    (∀ d : ℚ, 183 + 73 * 6 ≤ d →
      (BoQ.calculateDiscounts { r with usage_duration_hours := d } c).sud_percent = 30) := by
  have key : ∀ d : ℚ,
      (BoQ.calculateDiscounts { r with usage_duration_hours := d } c).sud_percent
        = BoQ.sudPercentSpec d := by
    intro d
    by_cases h183 : (183:ℚ) < d <;>
      simp [BoQ.calculateDiscounts, BoQ.sudPercentSpec, hm, hp, h183]
  refine ⟨?_, ?_, ?_⟩
  · by_cases h183 : 183 < r.usage_duration_hours <;>
      simp [BoQ.calculateDiscounts, hm, hp, h183]
  · intro d1 d2 hd
    rw [key d1, key d2]
    exact sudPercentSpec_monotone hd
  · intro d hd
    rw [key d]
    exact sudPercentSpec_cap d hd

/-- The spec's reference resource: `n1-standard-2`, 2 vCPU, 7.5 GB, 730
hours of continuous on-demand usage, 100 GB `pd-standard` disk. -/
def rRef730 : BoQ.Resource :=
  { resource_id := "res-ref", project_id := "proj-ref"
    machine_type := some "n1-standard-2", vcpu_count := 2, memory_gb := 7.5
    disk_type := "pd-standard", disk_size_gb := 100, region := "us-central1"
    pricing_model := "on-demand", usage_duration_hours := 730
    usage_pattern := "continuous", gpu_count := 0, external_ip := false }

/-- C2 witness: the sustained-use formula theorem applied to the
reference on-demand continuous resource at 730 hours. -/
theorem calculateDiscounts_sud_monotone_capped_witness :
    (BoQ.calculateDiscounts rRef730 cC1ce).sud_percent =
      if 183 < rRef730.usage_duration_hours then
        min 30 ((⌊(rRef730.usage_duration_hours - 183) / 73⌋ * 5 : ℤ) : ℚ)
      else 0 :=
  (calculateDiscounts_sud_monotone_capped rRef730 cC1ce rfl rfl).1

/-- C5: when the compute catalog query matches nothing, the resolved
compute price per hour is the fixed-constant estimate
`vcpu_count * 0.0475 + memory_gb * 0.0063`; on the spec's reference
resource (2 vCPU, 7.5 GB, 730 continuous on-demand hours, no catalog
match at all) the compute cost is `(2*0.0475 + 7.5*0.0063)*730`, the
sustained-use percent is 30, and the total cost is strictly below the
subtotal. -/
theorem fetchPricing_compute_fallback_and_reference :
    (∀ (r : BoQ.Resource) (storageRows gpuRows : List ℚ),
      (BoQ.fetchPricingForResource r [] storageRows gpuRows).compute_price_per_hour
        = r.vcpu_count * 0.0475 + r.memory_gb * 0.0063) ∧
    (BoQ.calculateResourceBoQ rRef730 "boq-ref" ⟨[], [], []⟩).compute_cost_usd
      = (2 * 0.0475 + 7.5 * 0.0063) * 730 ∧
    (BoQ.calculateResourceBoQ rRef730 "boq-ref" ⟨[], [], []⟩).sustained_use_discount_percent
      = 30 ∧
    (BoQ.calculateResourceBoQ rRef730 "boq-ref" ⟨[], [], []⟩).total_cost_usd
      < (BoQ.calculateResourceBoQ rRef730 "boq-ref" ⟨[], [], []⟩).subtotal_usd := by
  have hs1 : ¬(("pd-standard":String) = "pd-ssd") := by decide
  have hs2 : ¬(("pd-standard":String) = "pd-balanced") := by decide
  have hm1 : ¬(("on-demand":String) = "spot") := by decide
  have hm2 : ¬(("on-demand":String) = "preemptible") := by decide
  have hm3 : ¬(("on-demand":String) = "cud-1-year") := by decide
  have hm4 : ¬(("on-demand":String) = "cud-3-year") := by decide
  refine ⟨?_, ?_, ?_, ?_⟩
  · intro r storageRows gpuRows
    cases hmt : r.machine_type <;>
      simp [BoQ.fetchPricingForResource, BoQ.estimateComputePricing, hmt]
  · norm_num [BoQ.calculateResourceBoQ, BoQ.fetchPricingForResource, BoQ.calculateBaseCosts,
      BoQ.estimateComputePricing, BoQ.getDefaultStoragePricing, rRef730, hs1, hs2]
  · norm_num [BoQ.calculateResourceBoQ, BoQ.fetchPricingForResource, BoQ.calculateBaseCosts,
      BoQ.calculateDiscounts, BoQ.estimateComputePricing, BoQ.getDefaultStoragePricing,
      rRef730, hs1, hs2, hm1, hm2, hm3, hm4, min_def]
  · norm_num [BoQ.calculateResourceBoQ, BoQ.fetchPricingForResource, BoQ.calculateBaseCosts,
      BoQ.calculateDiscounts, BoQ.calculateTotals, BoQ.estimateComputePricing,
      BoQ.getDefaultStoragePricing, rRef730, hs1, hs2, hm1, hm2, hm3, hm4, min_def, max_def]

/-- Fixture: a resource requesting one GPU. -/
def rGpu : BoQ.Resource :=
  { resource_id := "gpu-1", project_id := "proj-a", machine_type := some "a2-highgpu-1g"
    vcpu_count := 12, memory_gb := 85, disk_type := "pd-ssd", disk_size_gb := 100
    region := "us-central1", pricing_model := "on-demand", usage_duration_hours := 730
    usage_pattern := "continuous", gpu_count := 1, external_ip := false }

/-- C6 counterexample: for a resource with `gpu_count = 1` whose GPU
catalog query matches nothing, the resolved GPU unit price is `0` — there
is no per-type GPU fallback table, refuting the claimed storage-like
two-tier policy. -/
theorem fetchPricing_gpu_no_fallback :
    0 < rGpu.gpu_count ∧
    (BoQ.fetchPricingForResource rGpu [] [] []).gpu_price_per_hour = 0 := by
  constructor
  · norm_num [rGpu]
  · norm_num [BoQ.fetchPricingForResource, rGpu]

/-- C6 (amended): for a resource with `gpu_count > 0`, a matching active
GPU catalog entry is used when one exists, but with no catalog match the
GPU price stays at its initial `0`; only the storage component has the
two-tier policy with the fixed per-type fallback table. -/
theorem fetchPricing_gpu_catalog_only (r : BoQ.Resource)
    (computeRows storageRows gpuRows : List ℚ) (mt : String)
    (hmt : r.machine_type = some mt) (hg : 0 < r.gpu_count) :
    (∀ (p : ℚ) (l : List ℚ), gpuRows = p :: l →
      (BoQ.fetchPricingForResource r computeRows storageRows gpuRows).gpu_price_per_hour = p) ∧
    (gpuRows = [] →
      (BoQ.fetchPricingForResource r computeRows storageRows gpuRows).gpu_price_per_hour = 0) ∧
    (∀ (p : ℚ) (l : List ℚ), storageRows = p :: l →
      (BoQ.fetchPricingForResource r computeRows storageRows gpuRows).storage_price_per_gb_month
        = p) ∧
    (storageRows = [] →
      (BoQ.fetchPricingForResource r computeRows storageRows gpuRows).storage_price_per_gb_month
        = BoQ.getDefaultStoragePricing r.disk_type) := by
  refine ⟨?_, ?_, ?_, ?_⟩
  · intro p l hrows
    subst hrows
    simp [BoQ.fetchPricingForResource, hmt, hg]
  · intro hrows
    subst hrows
    simp [BoQ.fetchPricingForResource, hmt, hg]
  · intro p l hrows
    subst hrows
    simp [BoQ.fetchPricingForResource, hmt]
  · intro hrows
    subst hrows
    simp [BoQ.fetchPricingForResource, hmt]

/-- C6 witness: the GPU resolution theorem applied to a concrete
single-GPU resource with and without a catalog row. -/
theorem fetchPricing_gpu_catalog_only_witness :
    (BoQ.fetchPricingForResource rGpu [] [] [2.48]).gpu_price_per_hour = 2.48 ∧
    (BoQ.fetchPricingForResource rGpu [] [] []).gpu_price_per_hour = 0 ∧
    (BoQ.fetchPricingForResource rGpu [] [] []).storage_price_per_gb_month
      = BoQ.getDefaultStoragePricing rGpu.disk_type :=
  ⟨(fetchPricing_gpu_catalog_only rGpu [] [] [2.48] "a2-highgpu-1g" rfl
      (by norm_num [rGpu])).1 2.48 [] rfl,
   (fetchPricing_gpu_catalog_only rGpu [] [] [] "a2-highgpu-1g" rfl
      (by norm_num [rGpu])).2.1 rfl,
   (fetchPricing_gpu_catalog_only rGpu [] [] [] "a2-highgpu-1g" rfl
      (by norm_num [rGpu])).2.2.2 rfl⟩

/-- Fixture: a resource specification with no `machine_type` (the spec's
end-to-end failure scenario). -/
def rMissingMT : BoQ.Resource :=
  { resource_id := "res-2", project_id := "proj-b", machine_type := none
    vcpu_count := 4, memory_gb := 16, disk_type := "pd-balanced", disk_size_gb := 50
    region := "europe-west1", pricing_model := "on-demand", usage_duration_hours := 100
    usage_pattern := "intermittent", gpu_count := 0, external_ip := false }

/-- C4 counterexample: a batch of the valid reference resource plus one
resource missing `machine_type` completes with `resources_processed = 2`,
not 1 — the `TypeError` thrown while deriving the machine family is
caught inside `fetchPricingForResource` itself, which degrades to
fallback pricing, so the malformed resource is still priced rather than
skipped. -/
theorem calculateBoQRun_missing_machine_type_not_skipped :
    (BoQ.calculateBoQRun (BoQ.defaultStep "boq-2" (fun _ => ⟨[], [], []⟩))
      [rRef730, rMissingMT]).resources_processed = 2 ∧
    (BoQ.calculateBoQRun (BoQ.defaultStep "boq-2" (fun _ => ⟨[], [], []⟩))
      [rRef730, rMissingMT]).success = true ∧
    rMissingMT.machine_type = none := by
  refine ⟨rfl, rfl, rfl⟩

/-- C4 (amended): any per-resource exception thrown out of the
per-resource step is caught and that resource skipped — the processed
line items are exactly the successful results in order — and for a
non-empty batch the run reports `success: true` with
`resources_processed` equal to the number of successes and the summary
computed over exactly those. -/
theorem calculateBoQRun_skips_failures (step : BoQ.Resource → Except String BoQ.LineItem)
    (specs : List BoQ.Resource) (h : specs ≠ []) :
    BoQ.calcLoop step specs = specs.filterMap (fun r => (step r).toOption) ∧
    (BoQ.calculateBoQRun step specs).success = true ∧
    (BoQ.calculateBoQRun step specs).resources_processed
      = (specs.filterMap (fun r => (step r).toOption)).length ∧
    (BoQ.calculateBoQRun step specs).summary
      = BoQ.calculateSummary (specs.filterMap (fun r => (step r).toOption)) := by
  have hloop : ∀ l : List BoQ.Resource,
      BoQ.calcLoop step l = l.filterMap (fun r => (step r).toOption) := by
    intro l
    induction l with
    | nil => rfl
    | cons r rs ih =>
        cases hst : step r <;> simp [BoQ.calcLoop, hst, ih, Except.toOption]
  refine ⟨hloop specs, ?_, ?_, ?_⟩ <;> simp [BoQ.calculateBoQRun, h, hloop specs]

/-- Fixture: a per-resource step that throws for a resource without a
`machine_type` and otherwise behaves as `calculateResourceBoQ`. -/
def failingStep (r : BoQ.Resource) : Except String BoQ.LineItem :=
  match r.machine_type with
  | none => .error "TypeError: machine_type is undefined"
  | some _ => BoQ.defaultStep "boq-3" (fun _ => ⟨[], [], []⟩) r

/-- C4 witness: the skip theorem applied to a concrete two-resource
batch whose step fails on the second resource. -/
theorem calculateBoQRun_skips_failures_witness :
    BoQ.calcLoop failingStep [rRef730, rMissingMT]
      = [rRef730, rMissingMT].filterMap (fun r => (failingStep r).toOption) ∧
    (BoQ.calculateBoQRun failingStep [rRef730, rMissingMT]).success = true :=
  ⟨(calculateBoQRun_skips_failures failingStep [rRef730, rMissingMT] (by simp)).1,
   (calculateBoQRun_skips_failures failingStep [rRef730, rMissingMT] (by simp)).2.1⟩

/-- Fixture: the spec's round-trip raw entry, with fixed-point unit price
`{units: 0, nanos: 47500000}`. -/
def skuRef : PricingUpdater.RawSku :=
  { skuId := "SKU-1", description := "N1 Predefined Instance Core running in Americas"
    tieredRatesOfFirstPricingInfo :=
      some [{ unitPrice := { units := some 0, nanos := some 47500000 } }] }

/-- Fixture: the catalog entry the round-trip raw entry normalizes to. -/
def entryRef : PricingUpdater.NormalizedEntry :=
  { sku_id := "SKU-1", price_per_unit := 0.0475, category := "compute", is_active := true }

/-- C7: every raw price-list entry the normalizer does not drop gets the
headline `price_per_unit = units + nanos / 1e9` of its first tier's
fixed-point unit price, exactly (and never zero); in particular the raw
entry with unit price `{units: 0, nanos: 47500000}` normalizes to
`price_per_unit = 0.0475`. -/
theorem extractPricingInfo_price_exact :
    (∀ (sku : PricingUpdater.RawSku) (entry : PricingUpdater.NormalizedEntry),
      PricingUpdater.extractPricingInfo sku = some entry →
      ∃ (baseRate : PricingUpdater.TieredRate) (rest : List PricingUpdater.TieredRate),
        sku.tieredRatesOfFirstPricingInfo = some (baseRate :: rest) ∧
        entry.price_per_unit = PricingUpdater.specHeadlinePrice baseRate ∧
        entry.price_per_unit ≠ 0) ∧
    PricingUpdater.extractPricingInfo skuRef = some entryRef := by
  constructor
  · intro sku entry h
    unfold PricingUpdater.extractPricingInfo at h
    cases hrates : sku.tieredRatesOfFirstPricingInfo with
    | none => rw [hrates] at h; exact absurd h (by simp)
    | some rates =>
        rw [hrates] at h
        cases rates with
        | nil => exact absurd h (by simp)
        | cons baseRate rest =>
            by_cases hz : PricingUpdater.priceOfUnitPrice baseRate.unitPrice = 0
            · simp [hz] at h
            · simp [hz] at h
              refine ⟨baseRate, rest, rfl, ?_, ?_⟩
              · rw [← h]
                simp [PricingUpdater.specHeadlinePrice, PricingUpdater.priceOfUnitPrice]
                ring
              · rw [← h]
                simpa using hz
  · have hp : PricingUpdater.priceOfUnitPrice
        { units := some 0, nanos := some 47500000 } = 0.0475 := by
      norm_num [PricingUpdater.priceOfUnitPrice]
    have hcat : (PricingUpdater.extractMachineInfo
        "N1 Predefined Instance Core running in Americas").category = "compute" := by decide
    simp [PricingUpdater.extractPricingInfo, skuRef, entryRef, hp, hcat]
    norm_num

/-- C7 witness: the conversion theorem applied to the concrete
round-trip entry. -/
theorem extractPricingInfo_price_exact_witness :
    ∃ (baseRate : PricingUpdater.TieredRate) (rest : List PricingUpdater.TieredRate),
      skuRef.tieredRatesOfFirstPricingInfo = some (baseRate :: rest) ∧
      entryRef.price_per_unit = PricingUpdater.specHeadlinePrice baseRate ∧
      entryRef.price_per_unit ≠ 0 :=
  extractPricingInfo_price_exact.1 skuRef entryRef extractPricingInfo_price_exact.2

/-- The GPU detection block never touches the disk type. -/
theorem PricingUpdater.gpuStage_diskType (s : List Char) (i : PricingUpdater.MachineInfo) :
    (PricingUpdater.gpuStage s i).diskType = i.diskType := by
  unfold PricingUpdater.gpuStage
  split_ifs <;> rfl

/-- The usage-type block never touches the disk type. -/
theorem PricingUpdater.usageStage_diskType (s : List Char) (i : PricingUpdater.MachineInfo) :
    (PricingUpdater.usageStage s i).diskType = i.diskType := by
  unfold PricingUpdater.usageStage
  split_ifs <;> rfl

/-- The commitment block never touches the disk type. -/
theorem PricingUpdater.commitmentStage_diskType (s : List Char) (i : PricingUpdater.MachineInfo) :
    (PricingUpdater.commitmentStage s i).diskType = i.diskType := by
  unfold PricingUpdater.commitmentStage
  split_ifs <;> rfl

/-- The network-tier block never touches the disk type. -/
theorem PricingUpdater.networkStage_diskType (s : List Char) (i : PricingUpdater.MachineInfo) :
    (PricingUpdater.networkStage s i).diskType = i.diskType := by
  unfold PricingUpdater.networkStage
  split_ifs <;> rfl

/-- The usage-type block never touches the category. -/
theorem PricingUpdater.usageStage_category (s : List Char) (i : PricingUpdater.MachineInfo) :
    (PricingUpdater.usageStage s i).category = i.category := by
  unfold PricingUpdater.usageStage
  split_ifs <;> rfl

/-- The commitment block never touches the category. -/
theorem PricingUpdater.commitmentStage_category (s : List Char) (i : PricingUpdater.MachineInfo) :
    (PricingUpdater.commitmentStage s i).category = i.category := by
  unfold PricingUpdater.commitmentStage
  split_ifs <;> rfl

/-- Category after the GPU detection block. -/
theorem PricingUpdater.gpuStage_category (s : List Char) (i : PricingUpdater.MachineInfo) :
    (PricingUpdater.gpuStage s i).category =
      if strContains s "gpu" || strContains s "nvidia" || strContains s "tesla" then "gpu"
      else i.category := by
  unfold PricingUpdater.gpuStage
  split_ifs <;> rfl

/-- Category after the network-tier block. -/
theorem PricingUpdater.networkStage_category (s : List Char) (i : PricingUpdater.MachineInfo) :
    (PricingUpdater.networkStage s i).category =
      if strContains s "premium" then "network"
      else if strContains s "standard" &&
          (strContains s "network" || strContains s "egress" || strContains s "ip") then
        "network"
      else i.category := by
  unfold PricingUpdater.networkStage
  split_ifs with h1 h2 h3 <;> simp_all

/-- Disk type assigned by the disk classification block. -/
theorem PricingUpdater.diskStage_diskType (s : List Char) (i : PricingUpdater.MachineInfo) :
    (PricingUpdater.diskStage s i).diskType =
      if strContains s "ssd" then some "pd-ssd"
      else if strContains s "balanced" then some "pd-balanced"
      else if strContains s "standard" &&
          (strContains s "disk" || strContains s "storage") then some "pd-standard"
      else i.diskType := by
  unfold PricingUpdater.diskStage
  split_ifs with h1 h2 h3 <;> simp_all

/-- Category after the disk classification block. -/
theorem PricingUpdater.diskStage_category (s : List Char) (i : PricingUpdater.MachineInfo) :
    (PricingUpdater.diskStage s i).category =
      if strContains s "ssd" then "storage"
      else if strContains s "balanced" then "storage"
      else if strContains s "standard" &&
          (strContains s "disk" || strContains s "storage") then "storage"
      else i.category := by
  unfold PricingUpdater.diskStage
  split_ifs with h1 h2 h3 <;> simp_all

/-- C8 (amended): the pricing-updater's parser classifies disk type
exactly by the claimed rule — `ssd` → `pd-ssd`, else `balanced` →
`pd-balanced`, else `standard` with a `disk`/`storage` co-occurrence →
`pd-standard`; a matching description is categorized `storage` and a
non-matching one keeps `compute`, provided no later GPU/network keyword
rule fires.  (The pricing-fetcher's older parser does not follow this
rule — see the counterexample.) -/
theorem extractMachineInfo_disk_rule (description : String) :
    ((PricingUpdater.extractMachineInfo description).diskType = some "pd-ssd" ↔
      strContains (lowerChars description) "ssd" = true) ∧
    ((PricingUpdater.extractMachineInfo description).diskType = some "pd-balanced" ↔
      (strContains (lowerChars description) "ssd" = false ∧
        strContains (lowerChars description) "balanced" = true)) ∧
    ((PricingUpdater.extractMachineInfo description).diskType = some "pd-standard" ↔
      (strContains (lowerChars description) "ssd" = false ∧
        strContains (lowerChars description) "balanced" = false ∧
        (strContains (lowerChars description) "standard" &&
          (strContains (lowerChars description) "disk" ||
            strContains (lowerChars description) "storage")) = true)) ∧
    (strContains (lowerChars description) "ssd" = true →
      strContains (lowerChars description) "gpu" = false →
      strContains (lowerChars description) "nvidia" = false →
      strContains (lowerChars description) "tesla" = false →
      strContains (lowerChars description) "premium" = false →
      (strContains (lowerChars description) "standard" &&
        (strContains (lowerChars description) "network" ||
          strContains (lowerChars description) "egress" ||
          strContains (lowerChars description) "ip")) = false →
      (PricingUpdater.extractMachineInfo description).category = "storage") ∧
    (strContains (lowerChars description) "ssd" = false →
      strContains (lowerChars description) "balanced" = false →
      (strContains (lowerChars description) "standard" &&
        (strContains (lowerChars description) "disk" ||
          strContains (lowerChars description) "storage")) = false →
      strContains (lowerChars description) "gpu" = false →
      strContains (lowerChars description) "nvidia" = false →
      strContains (lowerChars description) "tesla" = false →
      strContains (lowerChars description) "premium" = false →
      (strContains (lowerChars description) "standard" &&
        (strContains (lowerChars description) "network" ||
          strContains (lowerChars description) "egress" ||
          strContains (lowerChars description) "ip")) = false →
      (PricingUpdater.extractMachineInfo description).category = "compute") := by
  have hdisk : (PricingUpdater.extractMachineInfo description).diskType
      = (PricingUpdater.diskStage (lowerChars description) PricingUpdater.initInfo).diskType := by
    unfold PricingUpdater.extractMachineInfo
    rw [PricingUpdater.networkStage_diskType, PricingUpdater.commitmentStage_diskType,
      PricingUpdater.usageStage_diskType, PricingUpdater.gpuStage_diskType]
  have hcat : (PricingUpdater.extractMachineInfo description).category
      = (PricingUpdater.networkStage (lowerChars description)
          (PricingUpdater.gpuStage (lowerChars description)
            (PricingUpdater.diskStage (lowerChars description)
              PricingUpdater.initInfo))).category := by
    unfold PricingUpdater.extractMachineInfo
    rw [PricingUpdater.networkStage_category, PricingUpdater.networkStage_category,
      PricingUpdater.commitmentStage_category, PricingUpdater.usageStage_category]
  have hne1 : ("pd-ssd" : String) ≠ "pd-balanced" := by decide
  have hne2 : ("pd-ssd" : String) ≠ "pd-standard" := by decide
  have hne3 : ("pd-balanced" : String) ≠ "pd-standard" := by decide
  refine ⟨?_, ?_, ?_, ?_, ?_⟩
  · rw [hdisk, PricingUpdater.diskStage_diskType]
    cases h1 : strContains (lowerChars description) "ssd" <;>
      cases h2 : strContains (lowerChars description) "balanced" <;>
      cases h3 : (strContains (lowerChars description) "standard" &&
        (strContains (lowerChars description) "disk" ||
          strContains (lowerChars description) "storage")) <;>
      simp_all [PricingUpdater.initInfo]
  · rw [hdisk, PricingUpdater.diskStage_diskType]
    cases h1 : strContains (lowerChars description) "ssd" <;>
      cases h2 : strContains (lowerChars description) "balanced" <;>
      cases h3 : (strContains (lowerChars description) "standard" &&
        (strContains (lowerChars description) "disk" ||
          strContains (lowerChars description) "storage")) <;>
      simp_all [PricingUpdater.initInfo]
  · rw [hdisk, PricingUpdater.diskStage_diskType]
    cases h1 : strContains (lowerChars description) "ssd" <;>
      cases h2 : strContains (lowerChars description) "balanced" <;>
      cases h3 : (strContains (lowerChars description) "standard" &&
        (strContains (lowerChars description) "disk" ||
          strContains (lowerChars description) "storage")) <;>
      simp_all [PricingUpdater.initInfo]
  · intro hssd hgpu hnv hts hprem hstdnet
    rw [hcat, PricingUpdater.networkStage_category, PricingUpdater.gpuStage_category,
      PricingUpdater.diskStage_category]
    simp [hssd, hgpu, hnv, hts, hprem, hstdnet]
  · intro hssd hbal hstddisk hgpu hnv hts hprem hstdnet
    rw [hcat, PricingUpdater.networkStage_category, PricingUpdater.gpuStage_category,
      PricingUpdater.diskStage_category]
    simp [hssd, hbal, hstddisk, hgpu, hnv, hts, hprem, hstdnet, PricingUpdater.initInfo]

/-- C8 counterexample: the pricing-fetcher's `extractMachineInfo` maps
`"n1-standard-2 instance core"` — which contains `standard` but neither
`disk` nor `storage` — to `pd-standard` / category `storage`, violating
the claimed co-occurrence requirement (the updater's parser keeps
`compute` on the same input). -/
theorem fetcher_standard_sets_storage_without_disk_token :
    (PricingFetcher.extractMachineInfo "n1-standard-2 instance core").category = "storage" ∧
    (PricingFetcher.extractMachineInfo "n1-standard-2 instance core").diskType
      = some "pd-standard" ∧
    strContains (lowerChars "n1-standard-2 instance core") "disk" = false ∧
    strContains (lowerChars "n1-standard-2 instance core") "storage" = false ∧
    (PricingUpdater.extractMachineInfo "n1-standard-2 instance core").category
      = "compute" := by
  decide

/-- C8 witness: the disk-rule theorem applied to a concrete
`ssd`-containing description. -/
theorem extractMachineInfo_disk_rule_witness :
    (PricingUpdater.extractMachineInfo "Local SSD backed capacity").category = "storage" :=
  (extractMachineInfo_disk_rule "Local SSD backed capacity").2.2.2.1
    (by decide) (by decide) (by decide) (by decide) (by decide) (by decide)
